import Mathlib

/-!
Shallow embedding of the `web-search-mcp` MCP Streamable HTTP server core
(`src/httpServer.ts`, `src/rateLimit.ts`, `src/errors.ts`), together with
theorems checking the natural-language specification against it.

Modelling conventions:
* JavaScript timestamps (`Date.now()`, `Date` objects) are natural numbers
  (milliseconds); each operation takes the current time as an argument.
* `Map` fields become functions into `Option`; object identity of SSE streams
  becomes a numeric stream id allocated from a counter.
* `Math.random()` becomes an explicit rational parameter `r` with `0 ≤ r ≤ 1`.
* Thrown JavaScript values become an explicit `Thrown` sum threaded through
  `Except`; `res.write` calls become an append-only per-stream write log.
-/

namespace WebSearchMCP

/-- JSON values as produced by `JSON.parse`; numbers are modelled as integers
(the only numeric value the claims inspect is the id `0`). -/
inductive JValue : Type where
  | null : JValue
  | bool : Bool → JValue
  | num : Int → JValue
  | str : String → JValue
  | arr : List JValue → JValue
  | obj : List (String × JValue) → JValue

/-- JavaScript truthiness of a JSON value (`!v` is `¬ jsTruthy v`);
`undefined` is represented by `Option.none` at use sites. -/
def jsTruthy : JValue → Bool
  | .null => false
  | .bool b => b
  | .num n => n != 0
  | .str s => s != ""
  | .arr _ => true
  | .obj _ => true

/-- Truthiness of a possibly absent value: an absent field (`undefined`)
is falsy. -/
def optTruthy : Option JValue → Bool
  | none => false
  | some v => jsTruthy v

/-- Truthiness of a possibly absent string (e.g. a request header). -/
def strTruthy : Option String → Bool
  | none => false
  | some s => s != ""

/-- JavaScript `a || b` on possibly absent strings. -/
def jsOrStr (a b : Option String) : Option String :=
  if strTruthy a then a else b

/-- First field of a JSON object with the given key (property lookup). -/
def jGetField (v : JValue) : String → Option JValue
  | k => match v with
    | .obj fs => fs.lookup k
    | _ => none

/-- Compact JSON serialization, modelling `JSON.stringify` up to
insignificant whitespace (the source passes an indent of 2) and
string-escaping of exotic characters. -/
def jStringify : JValue → String
  | .null => "null"
  | .bool b => if b then "true" else "false"
  | .num n => toString n
  | .str s => "\x22" ++ s ++ "\x22"
  | .arr xs => "[" ++ String.intercalate "," (xs.attach.map (fun x => jStringify x.1)) ++ "]"
  | .obj fs => "\x7b" ++ String.intercalate ","
      (fs.attach.map (fun f => "\x22" ++ f.1.1 ++ "\x22:" ++ jStringify f.1.2)) ++ "\x7d"
decreasing_by
  all_goals simp_wf
  · have h := List.sizeOf_lt_of_mem x.2
    omega
  · obtain ⟨⟨k, v⟩, hf⟩ := f
    have h := List.sizeOf_lt_of_mem hf
    simp only [Prod.mk.sizeOf_spec] at h
    simp only []
    omega

/-- Rendering of a possibly absent JSON value by JavaScript string
interpolation, as used in thrown `Error` messages. -/
def jsDisplay : Option JValue → String
  | none => "undefined"
  | some (.str s) => s
  | some v => jStringify v

end WebSearchMCP

namespace WebSearchMCP

/-! ## `src/errors.ts` -/

/-- `MCPError` (src/errors.ts): a plain error object built by
`createMCPError(code, message, details?)`. Codes are strings such as
`"RATE_LIMITED"`. -/
structure MCPErr : Type where
  code : String
  message : String
  details : Option JValue

/-- A thrown JavaScript value as it is discriminated by the catch blocks of
`processJsonRpcRequest` and `withBackoff`: an `MCPErrorException` instance, a
plain object carrying a `code` property (encoded as a `JValue`), or anything
else reduced to its `String(error)` rendering. -/
inductive Thrown : Type where
  | exc : String → String → Option JValue → Thrown
  | obj : JValue → Thrown
  | other : String → Thrown

/-- The test `typeof error === "object" && error !== null && "code" in error
&& error.code === "RATE_LIMITED"` from `BackoffManager.withBackoff`; an
`MCPErrorException` is an object with a `code` property, so it also matches. -/
def isStrField (v : Option JValue) (s : String) : Bool :=
  match v with
  | some (.str t) => t == s
  | _ => false

def thrownIsRateLimited : Thrown → Bool
  | .exc code _ _ => code == "RATE_LIMITED"
  | .obj o => isStrField (jGetField o "code") "RATE_LIMITED"
  | .other _ => false

/-- `createMCPError` encoded as the `JValue` object that is actually thrown. -/
def mcpErrToJValue (e : MCPErr) : JValue :=
  .obj ([("code", .str e.code), ("message", .str e.message)] ++
    (match e.details with
     | some d => [("details", d)]
     | none => []))

/-! ## `src/rateLimit.ts` — `RateLimiter` -/

/-- `RateLimitEntry` (src/rateLimit.ts): per-client window state. -/
structure RateLimitEntry : Type where
  count : Nat
  resetTime : Nat
deriving Repr, DecidableEq

/-- The `RateLimiter` class state: configuration plus its `limits` map. -/
structure RateLimiterState : Type where
  windowMs : Nat
  maxRequests : Nat
  limits : String → Option RateLimitEntry

/-- `RateLimiter.checkLimit(clientId)` at time `now`. Returns the thrown
rate-limit error (if any) together with the updated limiter state; in the
source the map write of a reset entry happens before the limit check, so the
state is threaded through even on failure. -/
def checkLimit (st : RateLimiterState) (clientId : String) (now : Nat) :
    Option MCPErr × RateLimiterState :=
  let resetTime := now + st.windowMs
  let entry : RateLimitEntry :=
    match st.limits clientId with
    | none => { count := 0, resetTime := resetTime }
    | some e => if now ≥ e.resetTime then { count := 0, resetTime := resetTime } else e
  if entry.count ≥ st.maxRequests then
    let retryAfterMs := entry.resetTime - now
    (some { code := "RATE_LIMITED", message := "Rate limit exceeded",
            details := some (.obj [("retryAfterMs", .num retryAfterMs),
                                   ("maxRequests", .num st.maxRequests),
                                   ("windowMs", .num st.windowMs)]) },
     { st with limits := Function.update st.limits clientId (some entry) })
  else
    (none,
     { st with limits :=
         Function.update st.limits clientId (some { entry with count := entry.count + 1 }) })

/-- Run `checkLimit` for one client at each time in `times`, collecting the
outcome of every call (`none` = admitted). -/
def runCalls (st : RateLimiterState) (clientId : String) :
    List Nat → List (Option MCPErr) × RateLimiterState
  | [] => ([], st)
  | t :: ts =>
    let (e, st') := checkLimit st clientId t
    let (es, st'') := runCalls st' clientId ts
    (e :: es, st'')

/-- Number of admitted calls in a list of outcomes. -/
def countAdmitted (es : List (Option MCPErr)) : Nat :=
  (es.filter Option.isNone).length

/-! ## `src/rateLimit.ts` — `BackoffManager` -/

/-- The `delays` map of a `BackoffManager`. -/
structure BackoffState : Type where
  delays : String → Option Nat

/-- `BackoffManager.baseDelay` (1 second). -/
def baseDelay : Nat := 1000

/-- `BackoffManager.maxDelay` (32 seconds). -/
def maxDelay : Nat := 32000

/-- `BackoffManager.withBackoff(key, operation)`: `outcome` is the settled
result of `operation()` and `r` models the `Math.random()` draw. Returns the
updated state, the duration slept in milliseconds (`none` when no sleep
happens), and the outcome propagated to the caller. -/
def withBackoff {α : Type} (st : BackoffState) (key : String)
    (outcome : Except Thrown α) (r : ℚ) :
    BackoffState × Option ℚ × Except Thrown α :=
  match outcome with
  | .ok v => (⟨Function.update st.delays key none⟩, none, .ok v)
  | .error e =>
    if thrownIsRateLimited e then
      let currentDelay := (st.delays key).getD baseDelay
      let nextDelay := min (currentDelay * 2) maxDelay
      let jitter : ℚ := (currentDelay : ℚ) * (1/4) * (2 * r - 1)
      let delayWithJitter : ℚ := max 100 ((currentDelay : ℚ) + jitter)
      (⟨Function.update st.delays key (some nextDelay)⟩, some delayWithJitter, .error e)
    else
      (st, none, .error e)

end WebSearchMCP

namespace WebSearchMCP

/-! ## Rate limiter lemmas -/

theorem checkLimit_admit (st : RateLimiterState) (k : String) (now c R : Nat)
    (hE : st.limits k = some ⟨c, R⟩) (hlt : now < R) (hc : c < st.maxRequests) :
    checkLimit st k now =
      (none, { st with limits := Function.update st.limits k (some ⟨c + 1, R⟩) }) := by
  have h1 : ¬ (now ≥ R) := by omega
  have h2 : ¬ (c ≥ st.maxRequests) := by omega
  simp [checkLimit, hE, h1, h2]

theorem checkLimit_reject (st : RateLimiterState) (k : String) (now c R : Nat)
    (hE : st.limits k = some ⟨c, R⟩) (hlt : now < R) (hc : st.maxRequests ≤ c) :
    checkLimit st k now =
      (some { code := "RATE_LIMITED", message := "Rate limit exceeded",
              details := some (.obj [("retryAfterMs", .num (((R - now : Nat) : Int))),
                                     ("maxRequests", .num st.maxRequests),
                                     ("windowMs", .num st.windowMs)]) },
       st) := by
  have h1 : ¬ (now ≥ R) := by omega
  have h2 : c ≥ st.maxRequests := hc
  have h3 : Function.update st.limits k (some ⟨c, R⟩) = st.limits := by
    rw [← hE]; exact Function.update_eq_self k st.limits
  simp [checkLimit, hE, h1, h2, h3]

theorem checkLimit_fresh (st : RateLimiterState) (k : String) (now : Nat)
    (hE : st.limits k = none) (hmax : 0 < st.maxRequests) :
    checkLimit st k now =
      (none, { st with limits :=
        Function.update st.limits k (some ⟨1, now + st.windowMs⟩) }) := by
  have h2 : ¬ ((0 : Nat) ≥ st.maxRequests) := by omega
  simp [checkLimit, hE, h2]

theorem checkLimit_fresh_reject (st : RateLimiterState) (k : String) (now : Nat)
    (hE : st.limits k = none) (hmax : st.maxRequests = 0) :
    checkLimit st k now =
      (some { code := "RATE_LIMITED", message := "Rate limit exceeded",
              details := some (.obj [("retryAfterMs", .num (((now + st.windowMs - now : Nat) : Int))),
                                     ("maxRequests", .num st.maxRequests),
                                     ("windowMs", .num st.windowMs)]) },
       { st with limits := Function.update st.limits k (some ⟨0, now + st.windowMs⟩) }) := by
  have h2 : (0 : Nat) ≥ st.maxRequests := by omega
  simp [checkLimit, hE, h2]

theorem checkLimit_expired (st : RateLimiterState) (k : String) (now c R : Nat)
    (hE : st.limits k = some ⟨c, R⟩) (hge : R ≤ now) (hmax : 0 < st.maxRequests) :
    checkLimit st k now =
      (none, { st with limits :=
        Function.update st.limits k (some ⟨1, now + st.windowMs⟩) }) := by
  have h1 : now ≥ R := hge
  have h2 : ¬ ((0 : Nat) ≥ st.maxRequests) := by omega
  simp [checkLimit, hE, h1, h2]

theorem runCalls_admits_all :
    ∀ (ts : List Nat) (st : RateLimiterState) (k : String) (c R : Nat),
      st.limits k = some ⟨c, R⟩ → (∀ t ∈ ts, t < R) →
      c + ts.length ≤ st.maxRequests →
      runCalls st k ts =
        (List.replicate ts.length none,
         { st with limits := Function.update st.limits k (some ⟨c + ts.length, R⟩) })
  | [], st, k, c, R, hE, _, _ => by
      have h : Function.update st.limits k (some ⟨c, R⟩) = st.limits := by
        rw [← hE]; exact Function.update_eq_self k st.limits
      simp [runCalls, h]
  | t :: ts, st, k, c, R, hE, hts, hn => by
      have hlt : t < R := hts t (List.mem_cons_self t ts)
      have hc : c < st.maxRequests := by
        have := ts.length; simp only [List.length_cons] at hn; omega
      have h1 := checkLimit_admit st k t c R hE hlt hc
      have hE1 : (Function.update st.limits k (some ⟨c + 1, R⟩)) k = some ⟨c + 1, R⟩ :=
        Function.update_same k _ st.limits
      have ih := runCalls_admits_all ts
        { st with limits := Function.update st.limits k (some ⟨c + 1, R⟩) } k (c + 1) R
        hE1 (fun u hu => hts u (List.mem_cons_of_mem t hu))
        (by simp only [List.length_cons] at hn; simpa using by omega)
      simp only [runCalls, h1, ih, List.length_cons]
      refine Prod.ext rfl ?_
      simp only [Function.update_idem]
      have : c + 1 + ts.length = c + (ts.length + 1) := by omega
      rw [this]

theorem runCalls_counts :
    ∀ (ts : List Nat) (st : RateLimiterState) (k : String) (c R : Nat),
      st.limits k = some ⟨c, R⟩ → (∀ t ∈ ts, t < R) →
      countAdmitted (runCalls st k ts).1 = min ts.length (st.maxRequests - c) ∧
      (runCalls st k ts).2 =
        { st with limits :=
            Function.update st.limits k (some ⟨c + min ts.length (st.maxRequests - c), R⟩) }
  | [], st, k, c, R, hE, _ => by
      have h : Function.update st.limits k (some ⟨c, R⟩) = st.limits := by
        rw [← hE]; exact Function.update_eq_self k st.limits
      simp [runCalls, countAdmitted, h]
  | t :: ts, st, k, c, R, hE, hts => by
      have hlt : t < R := hts t (List.mem_cons_self t ts)
      by_cases hc : c < st.maxRequests
      · have h1 := checkLimit_admit st k t c R hE hlt hc
        have hE1 : (Function.update st.limits k (some ⟨c + 1, R⟩)) k =
            some (⟨c + 1, R⟩ : RateLimitEntry) := Function.update_same k _ st.limits
        obtain ⟨ihc, ihs⟩ := runCalls_counts ts
          { st with limits := Function.update st.limits k (some ⟨c + 1, R⟩) } k (c + 1) R
          hE1 (fun u hu => hts u (List.mem_cons_of_mem t hu))
        have hrun : runCalls st k (t :: ts) =
            (none :: (runCalls { st with limits := Function.update st.limits k (some ⟨c + 1, R⟩) } k ts).1, (runCalls { st with limits := Function.update st.limits k (some ⟨c + 1, R⟩) } k ts).2) := by
          simp [runCalls, h1]
        refine ⟨?_, ?_⟩
        · rw [hrun]
          simp only [countAdmitted, List.filter_cons, Option.isNone_none,
            List.length_cons, if_pos] at *
          omega
        · rw [hrun, ihs]
          simp only [Function.update_idem, List.length_cons]
          have harith : c + 1 + min ts.length (st.maxRequests - (c + 1)) =
              c + min (ts.length + 1) (st.maxRequests - c) := by omega
          rw [harith]
      · have hc' : st.maxRequests ≤ c := by omega
        have h1 := checkLimit_reject st k t c R hE hlt hc'
        obtain ⟨ihc, ihs⟩ := runCalls_counts ts st k c R hE
          (fun u hu => hts u (List.mem_cons_of_mem t hu))
        have hrun : runCalls st k (t :: ts) =
            (some { code := "RATE_LIMITED", message := "Rate limit exceeded",
                    details := some (.obj [("retryAfterMs", .num (((R - t : Nat) : Int))),
                                           ("maxRequests", .num st.maxRequests),
                                           ("windowMs", .num st.windowMs)]) } ::
              (runCalls st k ts).1,
             (runCalls st k ts).2) := by
          simp [runCalls, h1]
        refine ⟨?_, ?_⟩
        · rw [hrun]
          simp only [countAdmitted, List.filter_cons, Option.isNone_some,
            List.length_cons, if_neg, Bool.false_eq_true, not_false_iff] at *
          omega
        · rw [hrun, ihs]
          have harith : c + min ts.length (st.maxRequests - c) =
              c + min (ts.length + 1) (st.maxRequests - c) := by omega
          simp only [List.length_cons]
          rw [← harith]

/-- The behaviour claimed for one window of the rate governor configured with
`windowMs = 60000` and `max = 120` (see `claim_C5`): every call of a batch of
120 inside the window is admitted, the 121st call inside the window is
rejected with a `RATE_LIMITED` error carrying `retryAfterMs` equal to the
remaining window time and leaves the limiter unchanged, and a call made once
the window has elapsed is admitted with the counter reset. -/
def c5Window (f : String → Option RateLimitEntry) (k : String)
    (t0 : Nat) (ts : List Nat) (t120 t' : Nat) : Prop :=
  (runCalls ⟨60000, 120, f⟩ k (t0 :: ts)).1 = List.replicate 120 none ∧
  (checkLimit (runCalls ⟨60000, 120, f⟩ k (t0 :: ts)).2 k t120).1 =
    some { code := "RATE_LIMITED", message := "Rate limit exceeded",
           details := some (.obj [("retryAfterMs", .num (((t0 + 60000 - t120 : Nat) : Int))),
                                  ("maxRequests", .num (((120 : Nat) : Int))),
                                  ("windowMs", .num (((60000 : Nat) : Int)))]) } ∧
  (checkLimit (runCalls ⟨60000, 120, f⟩ k (t0 :: ts)).2 k t120).2 =
    (runCalls ⟨60000, 120, f⟩ k (t0 :: ts)).2 ∧
  (checkLimit (checkLimit (runCalls ⟨60000, 120, f⟩ k (t0 :: ts)).2 k t120).2 k t').1 =
    none ∧
  ((checkLimit (checkLimit (runCalls ⟨60000, 120, f⟩ k (t0 :: ts)).2 k t120).2 k t').2).limits k
    = some ⟨1, t' + 60000⟩

/-- C5: with `windowMs = 60000` and `max = 120`, for every key starting a new
window at `t0`: the first 120 `checkLimit` calls within the window all
succeed, the 121st call within the window fails with a `RATE_LIMITED` error
whose `retryAfterMs` equals the remaining window time (`windowResetAt - now`),
and after the window elapses the counter resets so the next call succeeds. -/
theorem claim_C5 (f : String → Option RateLimitEntry) (k : String)
    (t0 : Nat) (ts : List Nat) (t120 t' : Nat)
    (h0 : f k = none) (hlen : ts.length = 119)
    (hts : ∀ t ∈ ts, t < t0 + 60000)
    (h120 : t120 < t0 + 60000) (h' : t0 + 60000 ≤ t') :
    c5Window f k t0 ts t120 t' := by
  have h1 : checkLimit ⟨60000, 120, f⟩ k t0 =
      (none, ⟨60000, 120, Function.update f k (some ⟨1, t0 + 60000⟩)⟩) :=
    checkLimit_fresh ⟨60000, 120, f⟩ k t0 h0 (by norm_num)
  have hE1 : (Function.update f k (some ⟨1, t0 + 60000⟩)) k =
      some (⟨1, t0 + 60000⟩ : RateLimitEntry) := Function.update_same k _ f
  have h2 := runCalls_admits_all ts
    ⟨60000, 120, Function.update f k (some ⟨1, t0 + 60000⟩)⟩ k 1 (t0 + 60000)
    hE1 hts (by simp [hlen])
  have h2' : runCalls ⟨60000, 120, Function.update f k (some ⟨1, t0 + 60000⟩)⟩ k ts =
      (List.replicate 119 none,
       ⟨60000, 120, Function.update f k (some ⟨120, t0 + 60000⟩)⟩) := by
    rw [h2, hlen]
    simp [Function.update_idem]
  have hrepl : List.replicate 120 (none : Option MCPErr) =
      none :: List.replicate 119 none := by
    rw [show (120 : Nat) = 119 + 1 from rfl, List.replicate_succ]
  have hwhole : runCalls ⟨60000, 120, f⟩ k (t0 :: ts) =
      (List.replicate 120 none,
       ⟨60000, 120, Function.update f k (some ⟨120, t0 + 60000⟩)⟩) := by
    simp only [runCalls, h1, h2', hrepl]
  have hE2 : (Function.update f k (some ⟨120, t0 + 60000⟩)) k =
      some (⟨120, t0 + 60000⟩ : RateLimitEntry) := Function.update_same k _ f
  have hrej := checkLimit_reject ⟨60000, 120, Function.update f k (some ⟨120, t0 + 60000⟩)⟩
    k t120 120 (t0 + 60000) hE2 h120 (by norm_num)
  have hexp := checkLimit_expired ⟨60000, 120, Function.update f k (some ⟨120, t0 + 60000⟩)⟩
    k t' 120 (t0 + 60000) hE2 h' (by norm_num)
  refine ⟨?_, ?_, ?_, ?_, ?_⟩
  · rw [hwhole]
  · rw [hwhole, hrej]
  · rw [hwhole, hrej]
  · rw [hwhole, hrej, hexp]
  · rw [hwhole, hrej, hexp]
    exact Function.update_same k _ _

/-- Witness for `claim_C5` at a concrete window. -/
theorem claim_C5_witness :
    ((fun _ : String => (none : Option RateLimitEntry)) "client" = none) ∧
    (List.replicate 119 (0 : Nat)).length = 119 ∧
    (∀ t ∈ List.replicate 119 (0 : Nat), t < 0 + 60000) ∧
    59999 < 0 + 60000 ∧ 0 + 60000 ≤ 60000 ∧
    c5Window (fun _ => none) "client" 0 (List.replicate 119 0) 59999 60000 :=
  ⟨rfl, by simp, by simp, by norm_num, by norm_num,
   claim_C5 (fun _ => none) "client" 0 (List.replicate 119 0) 59999 60000 rfl
     (by simp) (by simp) (by norm_num) (by norm_num)⟩

/-- C10: a `checkLimit` call rejected inside a live window leaves the limiter
state exactly as it was (the counter is not incremented), and consequently for
any number of calls made within a single window exactly
`min (number of calls) max` of them are admitted. -/
theorem claim_C10 (wms mx : Nat) (f : String → Option RateLimitEntry)
    (k : String) (t0 : Nat) (ts : List Nat)
    (h0 : f k = none) (hts : ∀ t ∈ ts, t < t0 + wms) :
    (∀ (st : RateLimiterState) (now c R : Nat),
        st.limits k = some ⟨c, R⟩ → now < R → st.maxRequests ≤ c →
        (checkLimit st k now).2 = st ∧ ((checkLimit st k now).1).isSome = true) ∧
    countAdmitted (runCalls ⟨wms, mx, f⟩ k (t0 :: ts)).1 = min (ts.length + 1) mx := by
  constructor
  · intro st now c R hE hlt hc
    rw [checkLimit_reject st k now c R hE hlt hc]
    exact ⟨rfl, rfl⟩
  · rcases Nat.eq_zero_or_pos mx with hmx | hmx
    · subst hmx
      have h1 := checkLimit_fresh_reject ⟨wms, 0, f⟩ k t0 h0 rfl
      have hE1 : (Function.update f k (some ⟨0, t0 + wms⟩)) k =
          some (⟨0, t0 + wms⟩ : RateLimitEntry) := Function.update_same k _ f
      obtain ⟨ihc, -⟩ := runCalls_counts ts
        ⟨wms, 0, Function.update f k (some ⟨0, t0 + wms⟩)⟩ k 0 (t0 + wms) hE1 hts
      have hrun : (runCalls ⟨wms, 0, f⟩ k (t0 :: ts)).1 =
          (some { code := "RATE_LIMITED", message := "Rate limit exceeded",
                  details := some (.obj [("retryAfterMs", .num (((t0 + wms - t0 : Nat) : Int))),
                                         ("maxRequests", .num (((0 : Nat) : Int))),
                                         ("windowMs", .num wms)]) } ::
            (runCalls ⟨wms, 0, Function.update f k (some ⟨0, t0 + wms⟩)⟩ k ts).1) := by
        simp [runCalls, h1]
      rw [hrun]
      simp only [countAdmitted, List.filter_cons, Option.isNone_some,
        Bool.false_eq_true, if_neg, not_false_iff] at *
      omega
    · have h1 := checkLimit_fresh ⟨wms, mx, f⟩ k t0 h0 hmx
      have hE1 : (Function.update f k (some ⟨1, t0 + wms⟩)) k =
          some (⟨1, t0 + wms⟩ : RateLimitEntry) := Function.update_same k _ f
      obtain ⟨ihc, -⟩ := runCalls_counts ts
        ⟨wms, mx, Function.update f k (some ⟨1, t0 + wms⟩)⟩ k 1 (t0 + wms) hE1 hts
      have hrun : (runCalls ⟨wms, mx, f⟩ k (t0 :: ts)).1 =
          (none :: (runCalls ⟨wms, mx, Function.update f k (some ⟨1, t0 + wms⟩)⟩ k ts).1) := by
        simp [runCalls, h1]
      rw [hrun]
      simp only [countAdmitted, List.filter_cons, Option.isNone_none, if_pos] at *
      simp only [List.length_cons]
      omega

/-- Witness for `claim_C10`: five calls in a window with `max = 2` admit
exactly two. -/
theorem claim_C10_witness :
    ((fun _ : String => (none : Option RateLimitEntry)) "client" = none) ∧
    (∀ t ∈ [1, 2, 3, 4], t < 0 + 10) ∧
    ((∀ (st : RateLimiterState) (now c R : Nat),
        st.limits "client" = some ⟨c, R⟩ → now < R → st.maxRequests ≤ c →
        (checkLimit st "client" now).2 = st ∧
          ((checkLimit st "client" now).1).isSome = true) ∧
     countAdmitted (runCalls ⟨10, 2, fun _ => none⟩ "client" (0 :: [1, 2, 3, 4])).1 =
       min ([1, 2, 3, 4].length + 1) 2) :=
  ⟨rfl, by simp, claim_C10 10 2 (fun _ => none) "client" 0 [1, 2, 3, 4] rfl (by simp)⟩

/-! ## Backoff lemmas -/

/-- Every delay stored by the backoff manager is at most the 32 s ceiling. -/
def delaysBounded (st : BackoffState) : Prop :=
  ∀ k d, st.delays k = some d → d ≤ maxDelay

theorem withBackoff_preserves_bound {α : Type} (st : BackoffState) (key : String)
    (outcome : Except Thrown α) (r : ℚ) (h : delaysBounded st) :
    delaysBounded (withBackoff st key outcome r).1 := by
  intro k d hk
  by_cases hkk : k = key
  · subst hkk
    cases outcome with
    | ok v =>
      have hv : (withBackoff (α := α) st k (.ok v) r).1.delays k = none := by
        simp [withBackoff]
      rw [hv] at hk; cases hk
    | error e =>
      by_cases hrl : thrownIsRateLimited e
      · have hv : (withBackoff (α := α) st k (.error e) r).1.delays k =
            some (min ((st.delays k).getD baseDelay * 2) maxDelay) := by
          simp [withBackoff, hrl]
        rw [hv] at hk
        cases hk
        exact min_le_right _ _
      · have hv : (withBackoff (α := α) st k (.error e) r).1 = st := by
          simp [withBackoff, hrl]
        rw [hv] at hk
        exact h k d hk
  · have hv : (withBackoff (α := α) st key outcome r).1.delays k = st.delays k := by
      cases outcome with
      | ok v => simp [withBackoff, Function.update_noteq hkk]
      | error e =>
        by_cases hrl : thrownIsRateLimited e <;>
          simp [withBackoff, hrl, Function.update_noteq hkk]
    rw [hv] at hk
    exact h k d hk

theorem sleepJitter_bounds (d r : ℚ) (hd : 1000 ≤ d) (hr0 : 0 ≤ r) (hr1 : r ≤ 1) :
    3/4 * d ≤ max 100 (d + d * (1/4) * (2 * r - 1)) ∧
    max 100 (d + d * (1/4) * (2 * r - 1)) ≤ 5/4 * d := by
  have h100 : (100 : ℚ) ≤ d + d * (1/4) * (2 * r - 1) := by nlinarith
  rw [max_eq_right h100]
  constructor
  · nlinarith
  · nlinarith

/-- The behaviour claimed for three consecutive `RATE_LIMITED` failures under
`withBackoff` for a key with no stored delay, followed by a success (see
`claim_C6`): the three sleeps are approximately 1 s, 2 s, 4 s, each within
±25 %, the stored delays are 2 s, 4 s, 8 s (all below the 32 s ceiling), each
failure is re-raised unchanged, and the success deletes the stored delay. -/
def c6Behaviour (st0 : BackoffState) (key : String) (e : Thrown)
    (r1 r2 r3 : ℚ) : Prop :=
  let p1 := withBackoff (α := Unit) st0 key (.error e) r1
  let p2 := withBackoff (α := Unit) p1.1 key (.error e) r2
  let p3 := withBackoff (α := Unit) p2.1 key (.error e) r3
  (∃ s1, p1.2.1 = some s1 ∧ 750 ≤ s1 ∧ s1 ≤ 1250) ∧
  (∃ s2, p2.2.1 = some s2 ∧ 1500 ≤ s2 ∧ s2 ≤ 2500) ∧
  (∃ s3, p3.2.1 = some s3 ∧ 3000 ≤ s3 ∧ s3 ≤ 5000) ∧
  p1.1.delays key = some 2000 ∧
  p2.1.delays key = some 4000 ∧
  p3.1.delays key = some 8000 ∧
  delaysBounded p3.1 ∧
  p1.2.2 = .error e ∧ p2.2.2 = .error e ∧ p3.2.2 = .error e ∧
  (withBackoff (α := Unit) p3.1 key (.ok ()) r1).1.delays key = none

/-- C6: three consecutive `RATE_LIMITED` failures for one key sleep
approximately 1 s, 2 s, 4 s (each within ±25 % jitter), the stored delay never
exceeds the 32 s ceiling, a subsequent success deletes the stored delay, and
`withBackoff` always re-raises the original failure unchanged. -/
theorem claim_C6 (st0 : BackoffState) (key : String) (e : Thrown)
    (r1 r2 r3 : ℚ) (he : thrownIsRateLimited e = true)
    (h0 : st0.delays key = none) (hbound : delaysBounded st0)
    (hr1 : 0 ≤ r1 ∧ r1 ≤ 1) (hr2 : 0 ≤ r2 ∧ r2 ≤ 1) (hr3 : 0 ≤ r3 ∧ r3 ≤ 1) :
    c6Behaviour st0 key e r1 r2 r3 ∧
    (∀ (st : BackoffState) (k : String) (e' : Thrown) (r : ℚ),
      (withBackoff (α := Unit) st k (.error e') r).2.2 = .error e') ∧
    (∀ (st : BackoffState) (k : String) (out : Except Thrown Unit) (r : ℚ),
      delaysBounded st → delaysBounded (withBackoff st k out r).1) := by
  have hp1 : withBackoff (α := Unit) st0 key (.error e) r1 =
      (⟨Function.update st0.delays key (some 2000)⟩,
       some (max 100 ((1000 : ℚ) + (1000 : ℚ) * (1/4) * (2 * r1 - 1))),
       Except.error e) := by
    simp only [withBackoff, he, if_true, h0, Option.getD_none]
    norm_num [baseDelay, maxDelay]
  have hp2 : withBackoff (α := Unit)
      (⟨Function.update st0.delays key (some 2000)⟩ : BackoffState) key (.error e) r2 =
      (⟨Function.update st0.delays key (some 4000)⟩,
       some (max 100 ((2000 : ℚ) + (2000 : ℚ) * (1/4) * (2 * r2 - 1))),
       Except.error e) := by
    simp only [withBackoff, he, if_true, Function.update_same, Option.getD_some]
    norm_num [maxDelay, Function.update_idem]
  have hp3 : withBackoff (α := Unit)
      (⟨Function.update st0.delays key (some 4000)⟩ : BackoffState) key (.error e) r3 =
      (⟨Function.update st0.delays key (some 8000)⟩,
       some (max 100 ((4000 : ℚ) + (4000 : ℚ) * (1/4) * (2 * r3 - 1))),
       Except.error e) := by
    simp only [withBackoff, he, if_true, Function.update_same, Option.getD_some]
    norm_num [maxDelay, Function.update_idem]
  refine ⟨?_, ?_, ?_⟩
  · simp only [c6Behaviour]
    rw [hp1]; dsimp only
    rw [hp2]; dsimp only
    rw [hp3]; dsimp only
    obtain ⟨hb1, hb1'⟩ := sleepJitter_bounds 1000 r1 (by norm_num) hr1.1 hr1.2
    obtain ⟨hb2, hb2'⟩ := sleepJitter_bounds 2000 r2 (by norm_num) hr2.1 hr2.2
    obtain ⟨hb3, hb3'⟩ := sleepJitter_bounds 4000 r3 (by norm_num) hr3.1 hr3.2
    refine ⟨⟨_, rfl, by linarith, by linarith⟩, ⟨_, rfl, by linarith, by linarith⟩,
      ⟨_, rfl, by linarith, by linarith⟩, Function.update_same key _ _,
      Function.update_same key _ _, Function.update_same key _ _, ?_, rfl, rfl, rfl, ?_⟩
    · intro k d hk
      dsimp only at hk
      by_cases hkk : k = key
      · subst hkk
        rw [Function.update_same] at hk
        cases hk
        norm_num [maxDelay]
      · rw [Function.update_noteq hkk] at hk
        exact hbound k d hk
    · simp [withBackoff, Function.update_same]
  · intro st k e' r
    by_cases h : thrownIsRateLimited e' <;> simp [withBackoff, h]
  · intro st k out r h
    exact withBackoff_preserves_bound st k out r h

/-- Witness for `claim_C6` at a concrete rate-limited error and jitter draws. -/
theorem claim_C6_witness :
    thrownIsRateLimited (.obj (.obj [("code", .str "RATE_LIMITED")])) = true ∧
    ((⟨fun _ => none⟩ : BackoffState).delays "google-cse" = none) ∧
    delaysBounded ⟨fun _ => none⟩ ∧
    ((0 : ℚ) ≤ 1/2 ∧ (1/2 : ℚ) ≤ 1) ∧
    (c6Behaviour ⟨fun _ => none⟩ "google-cse"
        (.obj (.obj [("code", .str "RATE_LIMITED")])) (1/2) (1/2) (1/2) ∧
     (∀ (st : BackoffState) (k : String) (e' : Thrown) (r : ℚ),
       (withBackoff (α := Unit) st k (.error e') r).2.2 = .error e') ∧
     (∀ (st : BackoffState) (k : String) (out : Except Thrown Unit) (r : ℚ),
       delaysBounded st → delaysBounded (withBackoff st k out r).1)) :=
  ⟨rfl, rfl, fun _ _ h => Option.noConfusion h, by norm_num,
   claim_C6 ⟨fun _ => none⟩ "google-cse" (.obj (.obj [("code", .str "RATE_LIMITED")]))
     (1/2) (1/2) (1/2) rfl rfl (fun _ _ h => Option.noConfusion h)
     (by norm_num) (by norm_num) (by norm_num)⟩

end WebSearchMCP

namespace WebSearchMCP

/-! ## `src/httpServer.ts` — data model -/

/-- `Session` (src/httpServer.ts): timestamps are milliseconds. -/
structure Session : Type where
  id : String
  createdAt : Nat
  lastAccessedAt : Nat
  initialized : Bool
deriving Repr, DecidableEq

/-- `QueuedMessage` (src/httpServer.ts): an event retained for replay. -/
structure QueuedMessage : Type where
  eventId : Nat
  data : JValue
  streamKey : String

/-- One SSE event frame written to a stream's response
(`id: <eventId>` and `data: <json>` lines). -/
structure SSEWrite : Type where
  eventId : Nat
  data : JValue

/-- An `SSEStream` object. `sid` models the JavaScript object identity of the
stream (and of its `res`), and `writes` is the log of event frames written to
its response. -/
structure SSEStream : Type where
  sid : Nat
  sessionId : String
  lastEventId : Nat
  requestId : Option JValue
  writes : List SSEWrite

/-- The mutable state of an `MCPHttpServer`: its four registries and event
counter, plus the states of its `rateLimiter` and `backoffManager` members
(used by `handleToolCall`). `streams` maps a stream identity to the stream
object and `nextSid` models object allocation. -/
structure ServerState : Type where
  sessions : String → Option Session
  sseStreams : String → List Nat
  messageQueues : String → List QueuedMessage
  globalEventId : Nat
  rateLimiter : RateLimiterState
  backoff : BackoffState
  streams : Nat → Option SSEStream
  nextSid : Nat

/-- The state of a freshly constructed server with the default configuration
(`rateLimit: \x7b windowMs: 60000, max: 120 \x7d` from src/config.ts). -/
def initialState : ServerState where
  sessions := fun _ => none
  sseStreams := fun _ => []
  messageQueues := fun _ => []
  globalEventId := 0
  rateLimiter := ⟨60000, 120, fun _ => none⟩
  backoff := ⟨fun _ => none⟩
  streams := fun _ => none
  nextSid := 0

/-- `createSession()`: `freshId` models the `randomUUID()` draw and `now` the
current time. -/
def createSession (freshId : String) (now : Nat) : Session :=
  { id := freshId, createdAt := now, lastAccessedAt := now, initialized := false }

/-- `getSession(sessionId)`: refreshes `lastAccessedAt` on every successful
lookup. This method is defined in the source but is never invoked by any
request path. -/
def getSession (st : ServerState) (sessionId : Option String) (now : Nat) :
    Option Session × ServerState :=
  if strTruthy sessionId = false then (none, st)
  else
    match sessionId with
    | none => (none, st)
    | some sid =>
      match st.sessions sid with
      | some s =>
        let s' := { s with lastAccessedAt := now }
        (some s', { st with sessions := Function.update st.sessions sid (some s') })
      | none => (none, st)

/-- `sendSSE(stream, data, eventId?)`: allocates the next global event id when
none is given, updates the stream's `lastEventId`, and writes the
`id:`/`data:` frame to that single stream's response. -/
def sendSSE (st : ServerState) (sid : Nat) (data : JValue) (eventId : Option Nat) :
    ServerState :=
  let usedId := match eventId with
    | some i => i
    | none => st.globalEventId + 1
  let g := match eventId with
    | some _ => st.globalEventId
    | none => st.globalEventId + 1
  { st with
    globalEventId := g,
    streams := Function.update st.streams sid
      ((st.streams sid).map fun s =>
        { s with lastEventId := usedId, writes := s.writes ++ [⟨usedId, data⟩] }) }

/-- Allocation of a new `SSEStream` object (the object-literal construction in
`handlePost`/`handleGet`), returning its identity. -/
def allocStream (st : ServerState) (sessionId : String) (lastEventId : Nat)
    (requestId : Option JValue) : ServerState × Nat :=
  ({ st with
      streams := Function.update st.streams st.nextSid
        (some ⟨st.nextSid, sessionId, lastEventId, requestId, []⟩),
      nextSid := st.nextSid + 1 },
   st.nextSid)

/-- `addSSEStream(sessionId, stream)`: registers the stream for the session. -/
def addSSEStream (st : ServerState) (sessionId : String) (sid : Nat) : ServerState :=
  { st with sseStreams :=
      Function.update st.sseStreams sessionId (st.sseStreams sessionId ++ [sid]) }

/-- `removeSSEStream(sessionId, stream)`: removes the first registration of
the stream, if any. -/
def removeSSEStream (st : ServerState) (sessionId : String) (sid : Nat) : ServerState :=
  { st with sseStreams :=
      Function.update st.sseStreams sessionId ((st.sseStreams sessionId).erase sid) }

/-- `cleanupSessions()`: the hourly sweep destroying every session idle for
more than one hour, cascading to its streams and queued events. -/
def cleanupSessions (st : ServerState) (now : Nat) : ServerState :=
  { st with
    sessions := fun k => match st.sessions k with
      | some s => if now - s.lastAccessedAt > 3600000 then none else some s
      | none => none,
    sseStreams := fun k => match st.sessions k with
      | some s => if now - s.lastAccessedAt > 3600000 then [] else st.sseStreams k
      | none => st.sseStreams k,
    messageQueues := fun k => match st.sessions k with
      | some s => if now - s.lastAccessedAt > 3600000 then [] else st.messageQueues k
      | none => st.messageQueues k }

end WebSearchMCP

namespace WebSearchMCP

/-! ## `src/httpServer.ts` — dispatcher -/

/-- A parsed JSON-RPC envelope as destructured by `processJsonRpcRequest`
(`const \x7b jsonrpc, id, method, params \x7d = message`); absent fields are
`none`. -/
structure JsonRpcMessage : Type where
  jsonrpc : Option JValue
  id : Option JValue
  method : Option JValue
  params : Option JValue

/-- Observable interactions of the dispatcher with the rate governor and the
external collaborators. -/
inductive Effect : Type where
  | checkLimit : String → Effect
  | invoke : String → Effect
deriving Repr, DecidableEq

/-- Outcome oracle for the external collaborators
(`googleNewsSearch.search`, `fetchPage.fetchPage`): they are outside the core
and are modelled by their settled results, keyed by tool name. -/
def Collab : Type := String → Option JValue → Except Thrown JValue

/-- Outcome oracle for `new URL(input.url).hostname`: either the extracted
hostname or the `TypeError` thrown on an invalid URL. -/
def HostnameOracle : Type := Option JValue → Except Thrown String

/-- The `result` object returned by `handleInitialize`. -/
def initializeResult : JValue :=
  .obj [("protocolVersion", .str "2024-11-05"),
        ("capabilities", .obj [("tools", .obj [])]),
        ("serverInfo", .obj [("name", .str "news-tools"), ("version", .str "1.0.0")])]

/-- The fresh-session branch of `handleInitialize`: create a session, store it
under its id, then mark it initialized. -/
def initializeFresh (st : ServerState) (freshId : String) (now : Nat) :
    ServerState × JValue × String :=
  ({ st with sessions := Function.update st.sessions freshId (some { createSession freshId now with initialized := true }) },
   initializeResult, freshId)

/-- `handleInitialize(params, sessionId)`: reuse the live session named by a
truthy known id, otherwise create a fresh one; mark it initialized; return the
protocol metadata and the session id. `params` is unused by the source. -/
def handleInitialize (st : ServerState) (sessionId : Option String)
    (freshId : String) (now : Nat) : ServerState × JValue × String :=
  match sessionId with
  | some sid =>
    if sid != "" then
      match st.sessions sid with
      | some s =>
        ({ st with sessions :=
            Function.update st.sessions sid (some { s with initialized := true }) },
         initializeResult, s.id)
      | none => initializeFresh st freshId now
    else initializeFresh st freshId now
  | none => initializeFresh st freshId now

/-- `handleToolsList()`: the static tool catalogue. -/
def toolsListResult : JValue :=
  .obj [("tools", .arr [
    .obj [("name", .str "google_news_search"),
          ("description", .str "Search recent news via Google CSE. Returns filtered, deduplicated results (primary articles preferred)."),
          ("inputSchema", .obj [
            ("type", .str "object"),
            ("properties", .obj [
              ("topic", .obj [("type", .str "string"),
                ("description", .str "Topic to search (e.g., \x22artificial intelligence\x22).")]),
              ("dateRestrict", .obj [("type", .str "string"),
                ("description", .str "Freshness window: d1, d3, w1, m1."),
                ("default", .str "d3")]),
              ("gl", .obj [("type", .str "string"),
                ("description", .str "Country bias (e.g., us, gb, ca)."),
                ("default", .str "us")]),
              ("hl", .obj [("type", .str "string"),
                ("description", .str "UI language."),
                ("default", .str "en")]),
              ("lr", .obj [("type", .str "string"),
                ("description", .str "Document language filter."),
                ("default", .str "lang_en")]),
              ("num", .obj [("type", .str "integer"),
                ("description", .str "Max results (<=10)."),
                ("default", .num 8), ("minimum", .num 1), ("maximum", .num 10)]),
              ("primaryOnly", .obj [("type", .str "boolean"),
                ("description", .str "Return only primary articles per selection policy."),
                ("default", .bool true)])]),
            ("required", .arr [.str "topic"])])],
    .obj [("name", .str "fetch_page"),
          ("description", .str "Fetch a URL and extract the main article content & metadata for summarization."),
          ("inputSchema", .obj [
            ("type", .str "object"),
            ("properties", .obj [
              ("url", .obj [("type", .str "string"), ("format", .str "uri")]),
              ("timeoutMs", .obj [("type", .str "integer"), ("default", .num 12000)]),
              ("maxChars", .obj [("type", .str "integer"), ("default", .num 12000)]),
              ("language", .obj [("type", .str "string"),
                ("description", .str "Expected language (ISO 639-1)"),
                ("default", .str "en")])]),
            ("required", .arr [.str "url"])])]])]

/-- `handleToolCall(name, args)`: consults `checkLimit` first, then invokes
the named collaborator under `withBackoff`; unknown tools throw. The sleep
performed by `withBackoff` is dropped here since `handleToolCall` only awaits
the result. -/
def handleToolCall (st : ServerState) (name args : Option JValue)
    (now : Nat) (r : ℚ) (collab : Collab) (hostnameOf : HostnameOracle) :
    ServerState × Except Thrown JValue × List Effect :=
  match checkLimit st.rateLimiter "default-client" now with
  | (some err, rl) =>
    ({ st with rateLimiter := rl }, .error (.obj (mcpErrToJValue err)),
     [.checkLimit "default-client"])
  | (none, rl) =>
    let st1 := { st with rateLimiter := rl }
    match name with
    | some (.str "google_news_search") =>
      let res := withBackoff st1.backoff "google-cse" (collab "google_news_search" args) r
      ({ st1 with backoff := res.1 }, res.2.2,
       [.checkLimit "default-client", .invoke "google_news_search"])
    | some (.str "fetch_page") =>
      match hostnameOf (match args with
        | some a => jGetField a "url"
        | none => none) with
      | .error t => (st1, .error t, [.checkLimit "default-client"])
      | .ok host =>
        let res := withBackoff st1.backoff ("fetch-" ++ host) (collab "fetch_page" args) r
        ({ st1 with backoff := res.1 }, res.2.2,
         [.checkLimit "default-client", .invoke "fetch_page"])
    | n =>
      (st1, .error (.other ("Error: Unknown tool: " ++ jsDisplay n)),
       [.checkLimit "default-client"])

/-- The `id` member of a response object; an absent request id is dropped by
serialization. -/
def idField (id : Option JValue) : List (String × JValue) :=
  match id with
  | some v => [("id", v)]
  | none => []

/-- A JSON-RPC success envelope. -/
def rpcResult (id : Option JValue) (result : JValue) : JValue :=
  .obj ([("jsonrpc", .str "2.0")] ++ idField id ++ [("result", result)])

/-- A JSON-RPC failure envelope. -/
def rpcError (id : Option JValue) (err : JValue) : JValue :=
  .obj ([("jsonrpc", .str "2.0")] ++ idField id ++ [("error", err)])

/-- The catch of `processJsonRpcRequest`: an `MCPErrorException` maps to a
`-32603` error carrying its message and details, a thrown object with a `code`
property is used verbatim, and anything else maps to `-32603` with its
`String(error)` rendering. -/
def thrownToErrObj : Thrown → JValue
  | .exc _ message details =>
    .obj ([("code", .num (-32603)), ("message", .str message)] ++
      (match details with
       | some d => [("data", d)]
       | none => []))
  | .obj o => o
  | .other s => .obj [("code", .num (-32603)), ("message", .str s)]

/-- The `result` wrapper of a successful `tools/call`. -/
def toolCallContent (v : JValue) : JValue :=
  .obj [("content", .arr [.obj [("type", .str "text"), ("text", .str (jStringify v))]])]

/-- `processJsonRpcRequest(message, sessionId)`: validates the protocol tag
(throwing a `-32600` object past the dispatcher — the only value that can
escape it), routes by method, and maps handler errors to response envelopes.
Returns the new state, the escaped value or the pair of response and
newly-relevant session id, and the trace of governor/collaborator effects. -/
def processJsonRpcRequest (st : ServerState) (msg : JsonRpcMessage)
    (sessionId : Option String) (freshId : String) (now : Nat) (r : ℚ)
    (collab : Collab) (hostnameOf : HostnameOracle) :
    ServerState × Except Thrown (JValue × Option String) × List Effect :=
  if ¬ isStrField msg.jsonrpc "2.0" then
    (st, .error (.obj (.obj [("code", .num (-32600)),
      ("message", .str "Invalid Request: jsonrpc must be '2.0'")])), [])
  else
    match msg.method with
    | some (.str "initialize") =>
      let res := handleInitialize st sessionId freshId now
      (res.1, .ok (rpcResult msg.id res.2.1, some res.2.2), [])
    | some (.str "tools/list") =>
      (st, .ok (rpcResult msg.id toolsListResult, none), [])
    | some (.str "tools/call") =>
      match msg.params with
      | none =>
        (st, .ok (rpcError msg.id (thrownToErrObj
          (.other "TypeError: Cannot destructure property 'name' of 'params' as it is undefined.")), none), [])
      | some .null =>
        (st, .ok (rpcError msg.id (thrownToErrObj
          (.other "TypeError: Cannot destructure property 'name' of 'params' as it is null.")), none), [])
      | some p =>
        match handleToolCall st (jGetField p "name") (jGetField p "arguments")
          now r collab hostnameOf with
        | (st', .ok v, effs) => (st', .ok (rpcResult msg.id (toolCallContent v), none), effs)
        | (st', .error t, effs) => (st', .ok (rpcError msg.id (thrownToErrObj t), none), effs)
    | some (.str "ping") =>
      (st, .ok (rpcResult msg.id (.obj []), none), [])
    | m =>
      (st, .ok (rpcError msg.id (thrownToErrObj (.obj (.obj [("code", .num (-32601)),
        ("message", .str ("Method not found: " ++ jsDisplay m))]))), none), [])

end WebSearchMCP

namespace WebSearchMCP

/-! ## `src/httpServer.ts` — transport -/

/-- The HTTP response observed by the client: status, negotiated content
type, `Mcp-Session-Id` response header, and the JSON body when one is
written (for an SSE response the payload goes through the created stream's
write log and `body` is `none`). -/
structure HttpResp : Type where
  status : Nat
  contentType : Option String
  mcpSessionId : Option String
  body : Option JValue

/-- `String(error)` for a thrown value, as interpolated into the `data`
member of the transport-level parse-error body. -/
def stringOfThrown : Thrown → String
  | .exc _ message _ => "MCPErrorException: " ++ message
  | .obj _ => "[object Object]"
  | .other s => s

/-- The HTTP 400 body built by the catch of `handlePost`. -/
def parseErrorBody (data : String) : JValue :=
  .obj [("jsonrpc", .str "2.0"),
        ("error", .obj [("code", .num (-32700)), ("message", .str "Parse error"),
                        ("data", .str data)])]

/-- `handlePost(req, res)`. `parsed` is the result of `JSON.parse` on the
request body (`none` when parsing threw). The 100 ms deferred close of a
POST-created SSE stream is a later timer event, not part of this
transition. -/
def handlePost (st : ServerState) (sessionIdHeader : Option String)
    (supportsSSE : Bool) (parsed : Option JsonRpcMessage)
    (freshId : String) (now : Nat) (r : ℚ) (collab : Collab)
    (hostnameOf : HostnameOracle) : ServerState × HttpResp :=
  match parsed with
  | none =>
    (st, { status := 400, contentType := some "application/json",
           mcpSessionId := none, body := some (parseErrorBody "SyntaxError: Unexpected token") })
  | some msg =>
    match processJsonRpcRequest st msg sessionIdHeader freshId now r collab hostnameOf with
    | (st', .error t, _) =>
      (st', { status := 400, contentType := some "application/json",
              mcpSessionId := none, body := some (parseErrorBody (stringOfThrown t)) })
    | (st', .ok (response, newSessionId), _) =>
      if ¬ optTruthy msg.id then
        (st', { status := 202, contentType := none, mcpSessionId := none, body := none })
      else
        let hdr := if strTruthy newSessionId then newSessionId else none
        if supportsSSE then
          let key := jsOrStr newSessionId sessionIdHeader
          let sessKey := (jsOrStr key (some "default")).getD "default"
          let al := allocStream st' sessKey 0 msg.id
          let st3 := if strTruthy key then addSSEStream al.1 (key.getD "") al.2 else al.1
          let st4 := sendSSE st3 al.2 response none
          (st4, { status := 200, contentType := some "text/event-stream",
                  mcpSessionId := hdr, body := none })
        else
          (st', { status := 200, contentType := some "application/json",
                  mcpSessionId := hdr, body := some response })

/-- `handleGet(req, res)`: opens a long-lived SSE stream, optionally resuming
from a `Last-Event-ID` header. `lastEventIdHeader` is the numeric value of a
present header (the source applies `parseInt` to the raw header string). The
keepalive interval and the close handler are timer registrations outside this
transition. -/
def handleGet (st : ServerState) (sessionIdHeader : Option String)
    (lastEventIdHeader : Option Nat) (acceptsSSE : Bool) : ServerState × HttpResp :=
  if ¬ acceptsSSE then
    (st, { status := 405, contentType := none, mcpSessionId := none, body := none })
  else if strTruthy sessionIdHeader && (st.sessions (sessionIdHeader.getD "")).isNone then
    (st, { status := 404, contentType := some "application/json", mcpSessionId := none,
           body := some (.obj [("error", .str "Session not found")]) })
  else
    let al := allocStream st ((jsOrStr sessionIdHeader (some "default")).getD "default")
      (lastEventIdHeader.getD 0) none
    let st2 :=
      if strTruthy sessionIdHeader then
        let sid := sessionIdHeader.getD ""
        let sta := addSSEStream al.1 sid al.2
        match lastEventIdHeader with
        | some lastId =>
          (sta.messageQueues sid).foldl
            (fun acc m => if m.eventId > lastId then sendSSE acc al.2 m.data (some m.eventId) else acc)
            sta
        | none => sta
      else al.1
    (st2, { status := 200, contentType := some "text/event-stream",
            mcpSessionId := none, body := none })

/-- `handleDelete(req, res)`: terminates the session named by the header,
cascading to its streams and queued events. -/
def handleDelete (st : ServerState) (sessionIdHeader : Option String) :
    ServerState × HttpResp :=
  match sessionIdHeader with
  | none =>
    (st, { status := 400, contentType := some "application/json", mcpSessionId := none,
           body := some (.obj [("error", .str "Missing Mcp-Session-Id header")]) })
  | some sid =>
    if (st.sessions sid).isSome then
      ({ st with
          sessions := Function.update st.sessions sid none,
          sseStreams := Function.update st.sseStreams sid [],
          messageQueues := Function.update st.messageQueues sid [] },
       { status := 200, contentType := none, mcpSessionId := none, body := none })
    else
      (st, { status := 404, contentType := none, mcpSessionId := none, body := none })

end WebSearchMCP

namespace WebSearchMCP

/-! ## Transport lemmas -/

theorem processJsonRpcRequest_ok (st : ServerState) (msg : JsonRpcMessage)
    (sessionId : Option String) (freshId : String) (now : Nat) (r : ℚ)
    (collab : Collab) (hostnameOf : HostnameOracle)
    (h : isStrField msg.jsonrpc "2.0" = true) :
    ∃ v, (processJsonRpcRequest st msg sessionId freshId now r collab hostnameOf).2.1 =
      Except.ok v := by
  unfold processJsonRpcRequest
  rw [if_neg (by simp [h])]
  split
  · exact ⟨_, rfl⟩
  · exact ⟨_, rfl⟩
  · split
    · exact ⟨_, rfl⟩
    · exact ⟨_, rfl⟩
    · split
      · exact ⟨_, rfl⟩
      · exact ⟨_, rfl⟩
  · exact ⟨_, rfl⟩
  · exact ⟨_, rfl⟩

theorem handlePost_notification (st : ServerState) (hdr : Option String)
    (sse : Bool) (msg : JsonRpcMessage) (freshId : String) (now : Nat) (r : ℚ)
    (collab : Collab) (hostnameOf : HostnameOracle)
    (hj : isStrField msg.jsonrpc "2.0" = true) (hid : optTruthy msg.id = false) :
    handlePost st hdr sse (some msg) freshId now r collab hostnameOf =
      ((processJsonRpcRequest st msg hdr freshId now r collab hostnameOf).1,
       { status := 202, contentType := none, mcpSessionId := none, body := none }) := by
  obtain ⟨⟨response, nsid⟩, hv⟩ :=
    processJsonRpcRequest_ok st msg hdr freshId now r collab hostnameOf hj
  rcases hP : processJsonRpcRequest st msg hdr freshId now r collab hostnameOf with
    ⟨st', res, effs⟩
  rw [hP] at hv
  dsimp only at hv
  subst hv
  simp [handlePost, hP, hid]

end WebSearchMCP

namespace WebSearchMCP

/-! ## C8: notifications -/

/-- C8 counterexample: a parsed body carrying a method and no id, but whose
`jsonrpc` tag is not "2.0", is answered with HTTP 400 and a JSON parse-error
body — not with an empty 202. -/
theorem claim_C8_counterexample :
    (handlePost initialState none false
        (some ⟨some (.str "1.0"), none, some (.str "ping"), none⟩)
        "fresh" 0 0 (fun _ _ => .ok .null) (fun _ => .ok "h")).2.status = 400 ∧
    (handlePost initialState none false
        (some ⟨some (.str "1.0"), none, some (.str "ping"), none⟩)
        "fresh" 0 0 (fun _ _ => .ok .null) (fun _ => .ok "h")).2.body =
      some (parseErrorBody "[object Object]") := by
  exact ⟨rfl, rfl⟩

/-- C8 (amended): for every POST whose body parses, carries `jsonrpc = "2.0"`
and a method but no id, the server runs the handler and then answers 202 with
an empty body, writing no JSON-RPC response body. -/
theorem claim_C8 (st : ServerState) (hdr : Option String) (sse : Bool)
    (msg : JsonRpcMessage) (freshId : String) (now : Nat) (r : ℚ)
    (collab : Collab) (hostnameOf : HostnameOracle)
    (hj : isStrField msg.jsonrpc "2.0" = true)
    (_hm : msg.method.isSome = true) (hid : msg.id = none) :
    handlePost st hdr sse (some msg) freshId now r collab hostnameOf =
      ((processJsonRpcRequest st msg hdr freshId now r collab hostnameOf).1,
       { status := 202, contentType := none, mcpSessionId := none, body := none }) :=
  handlePost_notification st hdr sse msg freshId now r collab hostnameOf hj
    (by simp [optTruthy, hid])

/-- Witness for `claim_C8` on a concrete `ping` notification. -/
theorem claim_C8_witness :
    isStrField (some (JValue.str "2.0")) "2.0" = true ∧
    (some (JValue.str "ping")).isSome = true ∧
    ((none : Option JValue) = none) ∧
    handlePost initialState none false
        (some ⟨some (.str "2.0"), none, some (.str "ping"), none⟩)
        "fresh" 0 0 (fun _ _ => .ok .null) (fun _ => .ok "h") =
      ((processJsonRpcRequest initialState
          ⟨some (.str "2.0"), none, some (.str "ping"), none⟩
          none "fresh" 0 0 (fun _ _ => .ok .null) (fun _ => .ok "h")).1,
       { status := 202, contentType := none, mcpSessionId := none, body := none }) :=
  ⟨rfl, rfl, rfl,
   claim_C8 initialState none false ⟨some (.str "2.0"), none, some (.str "ping"), none⟩
     "fresh" 0 0 (fun _ _ => .ok .null) (fun _ => .ok "h") rfl rfl rfl⟩

/-! ## C9: falsy request ids -/

/-- C9: a message with `jsonrpc = "2.0"` whose id field is present but falsy
(`0`, `null`, `""`, `false`) is treated exactly like a notification: the
handler runs, its response is discarded, and the server answers 202 with an
empty body. -/
theorem claim_C9 (st : ServerState) (hdr : Option String) (sse : Bool)
    (msg : JsonRpcMessage) (freshId : String) (now : Nat) (r : ℚ)
    (collab : Collab) (hostnameOf : HostnameOracle) (v : JValue)
    (hj : isStrField msg.jsonrpc "2.0" = true)
    (hid : msg.id = some v) (hfalsy : jsTruthy v = false) :
    handlePost st hdr sse (some msg) freshId now r collab hostnameOf =
      ((processJsonRpcRequest st msg hdr freshId now r collab hostnameOf).1,
       { status := 202, contentType := none, mcpSessionId := none, body := none }) :=
  handlePost_notification st hdr sse msg freshId now r collab hostnameOf hj
    (by simp [optTruthy, hid, hfalsy])

/-- Witness for `claim_C9`: a `ping` request with id `0` gets an empty 202. -/
theorem claim_C9_witness :
    isStrField (some (JValue.str "2.0")) "2.0" = true ∧
    (some (JValue.num 0) = some (JValue.num 0)) ∧
    jsTruthy (JValue.num 0) = false ∧
    handlePost initialState none false
        (some ⟨some (.str "2.0"), some (.num 0), some (.str "ping"), none⟩)
        "fresh" 0 0 (fun _ _ => .ok .null) (fun _ => .ok "h") =
      ((processJsonRpcRequest initialState
          ⟨some (.str "2.0"), some (.num 0), some (.str "ping"), none⟩
          none "fresh" 0 0 (fun _ _ => .ok .null) (fun _ => .ok "h")).1,
       { status := 202, contentType := none, mcpSessionId := none, body := none }) :=
  ⟨rfl, rfl, rfl,
   claim_C9 initialState none false
     ⟨some (.str "2.0"), some (.num 0), some (.str "ping"), none⟩
     "fresh" 0 0 (fun _ _ => .ok .null) (fun _ => .ok "h") (.num 0) rfl rfl rfl⟩

/-! ## C7: initialize idempotence -/

/-- C7: calling `initialize` again with a previously issued live session id
returns the same id and adds no entry to the session map. -/
theorem claim_C7 (st : ServerState) (sid : String) (s : Session)
    (freshId : String) (now : Nat)
    (hsid : sid ≠ "") (hs : st.sessions sid = some s) (hid : s.id = sid) :
    (handleInitialize st (some sid) freshId now).2.2 = sid ∧
    (∀ k, (((handleInitialize st (some sid) freshId now).1).sessions k).isSome =
      (st.sessions k).isSome) := by
  have hbne : (sid != "") = true := by simp [bne_iff_ne, hsid]
  simp only [handleInitialize, hbne, if_true, hs]
  refine ⟨hid, ?_⟩
  intro k
  by_cases hk : k = sid
  · subst hk
    simp [Function.update_same, hs]
  · rw [Function.update_noteq hk]

/-- Witness for `claim_C7` on a server holding one initialized session. -/
theorem claim_C7_witness :
    ("s1" : String) ≠ "" ∧
    ({ initialState with sessions := Function.update initialState.sessions "s1" (some ⟨"s1", 5, 7, true⟩) } : ServerState).sessions "s1" = some ⟨"s1", 5, 7, true⟩ ∧
    (Session.mk "s1" 5 7 true).id = "s1" ∧
    ((handleInitialize { initialState with sessions := Function.update initialState.sessions "s1" (some ⟨"s1", 5, 7, true⟩) } (some "s1") "fresh" 9).2.2 = "s1" ∧
     (∀ k, (((handleInitialize { initialState with sessions := Function.update initialState.sessions "s1" (some ⟨"s1", 5, 7, true⟩) } (some "s1") "fresh" 9).1).sessions k).isSome =
       (({ initialState with sessions := Function.update initialState.sessions "s1" (some ⟨"s1", 5, 7, true⟩) } : ServerState).sessions k).isSome)) :=
  ⟨by decide, by simp, rfl,
   claim_C7 _ "s1" ⟨"s1", 5, 7, true⟩ "fresh" 9 (by decide) (by simp) rfl⟩

end WebSearchMCP

namespace WebSearchMCP

/-! ## State-preservation lemmas -/

theorem handleToolCall_state (st : ServerState) (name args : Option JValue)
    (now : Nat) (r : ℚ) (collab : Collab) (hostnameOf : HostnameOracle) :
    (handleToolCall st name args now r collab hostnameOf).1.sessions = st.sessions ∧
    (handleToolCall st name args now r collab hostnameOf).1.messageQueues =
      st.messageQueues := by
  unfold handleToolCall
  split
  · exact ⟨rfl, rfl⟩
  · split
    · exact ⟨rfl, rfl⟩
    · split
      · exact ⟨rfl, rfl⟩
      · exact ⟨rfl, rfl⟩
    · exact ⟨rfl, rfl⟩

theorem handleInitialize_lastAccessed (st : ServerState) (sessionId : Option String)
    (freshId : String) (now : Nat) (sid : String) (s : Session)
    (hneq : sid ≠ freshId) (hs : st.sessions sid = some s) :
    ∀ s', (handleInitialize st sessionId freshId now).1.sessions sid = some s' →
      s'.lastAccessedAt = s.lastAccessedAt := by
  have hfresh : ∀ s', (initializeFresh st freshId now).1.sessions sid = some s' →
      s'.lastAccessedAt = s.lastAccessedAt := by
    intro s' h'
    unfold initializeFresh at h'
    dsimp only at h'
    rw [Function.update_noteq hneq, hs] at h'
    cases h'
    rfl
  intro s' h'
  unfold handleInitialize at h'
  cases sessionId with
  | none => exact hfresh s' h'
  | some sid2 =>
    dsimp only at h'
    by_cases hbne : (sid2 != "") = true
    · rw [if_pos hbne] at h'
      cases hsd : st.sessions sid2 with
      | none => rw [hsd] at h'; dsimp only at h'; exact hfresh s' h'
      | some s2 =>
        rw [hsd] at h'
        dsimp only at h'
        by_cases hks : sid = sid2
        · subst hks
          rw [Function.update_same] at h'
          cases h'
          rw [hs] at hsd
          cases hsd
          rfl
        · rw [Function.update_noteq hks, hs] at h'
          cases h'
          rfl
    · rw [if_neg hbne] at h'
      exact hfresh s' h'

theorem handleToolCall_state' {st : ServerState} {name args : Option JValue}
    {now : Nat} {r : ℚ} {collab : Collab} {hostnameOf : HostnameOracle}
    {st' : ServerState} {res : Except Thrown JValue} {effs : List Effect}
    (heq : handleToolCall st name args now r collab hostnameOf = (st', res, effs)) :
    st'.sessions = st.sessions ∧ st'.messageQueues = st.messageQueues := by
  have h := handleToolCall_state st name args now r collab hostnameOf
  rw [heq] at h
  exact h

theorem processJsonRpcRequest_lastAccessed (st : ServerState) (msg : JsonRpcMessage)
    (sessionId : Option String) (freshId : String) (now : Nat) (r : ℚ)
    (collab : Collab) (hostnameOf : HostnameOracle) (sid : String) (s : Session)
    (hneq : sid ≠ freshId) (hs : st.sessions sid = some s) :
    ∀ s', (processJsonRpcRequest st msg sessionId freshId now r collab hostnameOf).1.sessions sid = some s' →
      s'.lastAccessedAt = s.lastAccessedAt := by
  have hid : ∀ s', st.sessions sid = some s' → s'.lastAccessedAt = s.lastAccessedAt := by
    intro s' h'
    rw [hs] at h'
    cases h'
    rfl
  intro s' h'
  unfold processJsonRpcRequest at h'
  split at h'
  · exact hid s' h'
  · split at h'
    · exact handleInitialize_lastAccessed st sessionId freshId now sid s hneq hs s' h'
    · exact hid s' h'
    · split at h'
      · exact hid s' h'
      · exact hid s' h'
      · split at h'
        · next st' v effs heq =>
          obtain ⟨hp, -⟩ := handleToolCall_state' heq
          dsimp only at h'
          rw [hp] at h'
          exact hid s' h'
        · next st' t effs heq =>
          obtain ⟨hp, -⟩ := handleToolCall_state' heq
          dsimp only at h'
          rw [hp] at h'
          exact hid s' h'
    · exact hid s' h'
    · exact hid s' h'

theorem replay_foldl_sessions (sid lastId : Nat) :
    ∀ (q : List QueuedMessage) (acc : ServerState),
      (q.foldl (fun a m => if m.eventId > lastId then sendSSE a sid m.data (some m.eventId) else a) acc).sessions = acc.sessions
  | [], _ => rfl
  | m :: q, acc => by
    rw [List.foldl_cons, replay_foldl_sessions sid lastId q]
    by_cases hm : m.eventId > lastId
    · simp only [if_pos hm]
      rfl
    · simp only [if_neg hm]

theorem handleGet_sessions (st : ServerState) (shdr : Option String)
    (lh : Option Nat) (acc : Bool) :
    ((handleGet st shdr lh acc).1).sessions = st.sessions := by
  unfold handleGet
  split
  · rfl
  · split
    · rfl
    · split
      · split
        · exact replay_foldl_sessions _ _ _ _
        · rfl
      · rfl

end WebSearchMCP

namespace WebSearchMCP

theorem sendSSE_sessions (st : ServerState) (sid : Nat) (d : JValue) (e : Option Nat) :
    (sendSSE st sid d e).sessions = st.sessions := rfl

theorem addSSEStream_sessions (st : ServerState) (k : String) (sid : Nat) :
    (addSSEStream st k sid).sessions = st.sessions := rfl

theorem allocStream_sessions (st : ServerState) (k : String) (l : Nat)
    (rq : Option JValue) : ((allocStream st k l rq).1).sessions = st.sessions := rfl

theorem processJsonRpcRequest_lastAccessed' {st : ServerState} {msg : JsonRpcMessage}
    {sessionId : Option String} {freshId : String} {now : Nat} {r : ℚ}
    {collab : Collab} {hostnameOf : HostnameOracle} {st' : ServerState}
    {res : Except Thrown (JValue × Option String)} {effs : List Effect}
    (heq : processJsonRpcRequest st msg sessionId freshId now r collab hostnameOf =
      (st', res, effs))
    (sid : String) (s : Session) (hneq : sid ≠ freshId) (hs : st.sessions sid = some s) :
    ∀ s', st'.sessions sid = some s' → s'.lastAccessedAt = s.lastAccessedAt := by
  intro s' h'
  refine processJsonRpcRequest_lastAccessed st msg sessionId freshId now r collab
    hostnameOf sid s hneq hs s' ?_
  rw [heq]
  exact h'

/-! ## C4: lastAccessedAt is never refreshed -/

/-- C4 counterexample: a `ping` request bearing a known session id, processed
at time 500000, leaves the session record — in particular `lastAccessedAt = 0`
— completely unchanged: nothing in the request path calls `getSession`, the
only function that would refresh the timestamp. -/
theorem claim_C4_counterexample :
    (handlePost
        { initialState with sessions := Function.update initialState.sessions "s1" (some ⟨"s1", 0, 0, true⟩) }
        (some "s1") false
        (some ⟨some (.str "2.0"), some (.num 1), some (.str "ping"), none⟩)
        "fresh" 500000 0 (fun _ _ => .ok .null) (fun _ => .ok "h")).1.sessions "s1" =
      some ⟨"s1", 0, 0, true⟩ ∧
    (500000 : Nat) ≠ 0 := by
  exact ⟨rfl, by decide⟩

/-- C4 (amended): no request path updates `lastAccessedAt`. Any `POST /mcp`
leaves the `lastAccessedAt` of every stored session unchanged (for a session
id distinct from the `randomUUID` draw used by a possible `initialize`), and
`GET /mcp` does not touch the session map at all; only session creation sets
the timestamp, so the idle sweep measures time since creation regardless of
traffic. -/
theorem claim_C4 (st : ServerState) (hdr : Option String) (sse : Bool)
    (parsed : Option JsonRpcMessage) (freshId : String) (now : Nat) (r : ℚ)
    (collab : Collab) (hostnameOf : HostnameOracle)
    (sid : String) (s : Session) (hneq : sid ≠ freshId)
    (hs : st.sessions sid = some s) :
    (∀ s', ((handlePost st hdr sse parsed freshId now r collab hostnameOf).1).sessions sid = some s' →
      s'.lastAccessedAt = s.lastAccessedAt) ∧
    (∀ shdr lh acc, ((handleGet st shdr lh acc).1).sessions = st.sessions) := by
  refine ⟨?_, fun shdr lh acc => handleGet_sessions st shdr lh acc⟩
  have hid : ∀ s', st.sessions sid = some s' → s'.lastAccessedAt = s.lastAccessedAt := by
    intro s' h'
    rw [hs] at h'
    cases h'
    rfl
  intro s' h'
  unfold handlePost at h'
  split at h'
  · exact hid s' h'
  · next msg =>
    split at h'
    · next st' t effs heq =>
      dsimp only at h'
      exact processJsonRpcRequest_lastAccessed' heq sid s hneq hs s' h'
    · next st' response nsid effs heq =>
      have hpr := processJsonRpcRequest_lastAccessed' heq sid s hneq hs
      split at h'
      · dsimp only at h'
        exact hpr s' h'
      · dsimp only at h'
        split at h'
        · rw [sendSSE_sessions] at h'
          split at h'
          · rw [addSSEStream_sessions, allocStream_sessions] at h'
            exact hpr s' h'
          · rw [allocStream_sessions] at h'
            exact hpr s' h'
        · exact hpr s' h'

/-- Witness for `claim_C4` on a server holding one session and a `ping`. -/
theorem claim_C4_witness :
    ("s1" : String) ≠ "fresh" ∧
    ({ initialState with sessions := Function.update initialState.sessions "s1" (some ⟨"s1", 0, 0, true⟩) } : ServerState).sessions "s1" = some ⟨"s1", 0, 0, true⟩ ∧
    ((∀ s', ((handlePost { initialState with sessions := Function.update initialState.sessions "s1" (some ⟨"s1", 0, 0, true⟩) } (some "s1") false (some ⟨some (.str "2.0"), some (.num 1), some (.str "ping"), none⟩) "fresh" 500000 0 (fun _ _ => .ok .null) (fun _ => .ok "h")).1).sessions "s1" = some s' →
        s'.lastAccessedAt = (Session.mk "s1" 0 0 true).lastAccessedAt) ∧
     (∀ shdr lh acc, ((handleGet { initialState with sessions := Function.update initialState.sessions "s1" (some ⟨"s1", 0, 0, true⟩) } shdr lh acc).1).sessions =
        ({ initialState with sessions := Function.update initialState.sessions "s1" (some ⟨"s1", 0, 0, true⟩) } : ServerState).sessions)) :=
  ⟨by decide, by simp,
   claim_C4 _ (some "s1") false (some ⟨some (.str "2.0"), some (.num 1), some (.str "ping"), none⟩)
     "fresh" 500000 0 (fun _ _ => .ok .null) (fun _ => .ok "h") "s1" ⟨"s1", 0, 0, true⟩
     (by decide) (by simp)⟩

end WebSearchMCP

namespace WebSearchMCP

/-! ## C3: tools/call has no session check -/

theorem handleToolCall_effects (st : ServerState) (name args : Option JValue)
    (now : Nat) (r : ℚ) (collab : Collab) (hostnameOf : HostnameOracle) :
    (∃ rest, (handleToolCall st name args now r collab hostnameOf).2.2 =
      Effect.checkLimit "default-client" :: rest) ∧
    (((checkLimit st.rateLimiter "default-client" now).1).isSome = true →
      (handleToolCall st name args now r collab hostnameOf).2.2 =
        [Effect.checkLimit "default-client"]) ∧
    (∀ tool, Effect.invoke tool ∈ (handleToolCall st name args now r collab hostnameOf).2.2 →
      (checkLimit st.rateLimiter "default-client" now).1 = none) := by
  rcases hcl : checkLimit st.rateLimiter "default-client" now with ⟨e, rl⟩
  cases e with
  | some err =>
    refine ⟨⟨[], ?_⟩, ?_, ?_⟩
    · simp only [handleToolCall, hcl]
    · intro _
      simp only [handleToolCall, hcl]
    · intro tool hmem
      simp only [handleToolCall, hcl] at hmem
      simp at hmem
  | none =>
    refine ⟨?_, ?_, ?_⟩
    · simp only [handleToolCall, hcl]
      split
      · exact ⟨_, rfl⟩
      · split
        · exact ⟨_, rfl⟩
        · exact ⟨_, rfl⟩
      · exact ⟨_, rfl⟩
    · intro hsome
      simp at hsome
    · intro tool _
      rfl

/-- C3 counterexample: with an empty session registry and no session id at
all, a `tools/call` is not rejected: the dispatcher consults the rate
governor, invokes the collaborator, and returns a success envelope. -/
theorem claim_C3_counterexample :
    (processJsonRpcRequest initialState
        ⟨some (.str "2.0"), some (.num 1), some (.str "tools/call"),
         some (.obj [("name", .str "google_news_search"), ("arguments", .obj [])])⟩
        none "fresh" 0 0 (fun _ _ => .ok (.str "results")) (fun _ => .ok "h")).2.2 =
      [Effect.checkLimit "default-client", Effect.invoke "google_news_search"] ∧
    (processJsonRpcRequest initialState
        ⟨some (.str "2.0"), some (.num 1), some (.str "tools/call"),
         some (.obj [("name", .str "google_news_search"), ("arguments", .obj [])])⟩
        none "fresh" 0 0 (fun _ _ => .ok (.str "results")) (fun _ => .ok "h")).2.1 =
      Except.ok (rpcResult (some (.num 1)) (toolCallContent (.str "results")), none) :=
  ⟨rfl, rfl⟩

/-- C3 (amended): the dispatcher performs no session check on `tools/call`.
For every `tools/call` with destructurable params, the effect trace starts
with the governor's `checkLimit`; when the governor rejects, no collaborator
is invoked; and any collaborator invocation implies the governor admitted the
call. -/
theorem claim_C3 (st : ServerState) (id : Option JValue) (p : JValue)
    (sessionId : Option String) (freshId : String) (now : Nat) (r : ℚ)
    (collab : Collab) (hostnameOf : HostnameOracle) (hp : p ≠ JValue.null) :
    (∃ rest, (processJsonRpcRequest st ⟨some (.str "2.0"), id, some (.str "tools/call"), some p⟩ sessionId freshId now r collab hostnameOf).2.2 = Effect.checkLimit "default-client" :: rest) ∧
    (((checkLimit st.rateLimiter "default-client" now).1).isSome = true →
      (processJsonRpcRequest st ⟨some (.str "2.0"), id, some (.str "tools/call"), some p⟩ sessionId freshId now r collab hostnameOf).2.2 = [Effect.checkLimit "default-client"]) ∧
    (∀ tool, Effect.invoke tool ∈ (processJsonRpcRequest st ⟨some (.str "2.0"), id, some (.str "tools/call"), some p⟩ sessionId freshId now r collab hostnameOf).2.2 →
      (checkLimit st.rateLimiter "default-client" now).1 = none) := by
  have hred : processJsonRpcRequest st ⟨some (.str "2.0"), id, some (.str "tools/call"), some p⟩ sessionId freshId now r collab hostnameOf =
      (match handleToolCall st (jGetField p "name") (jGetField p "arguments") now r collab hostnameOf with
       | (st', .ok v, effs) => (st', .ok (rpcResult id (toolCallContent v), none), effs)
       | (st', .error t, effs) => (st', .ok (rpcError id (thrownToErrObj t), none), effs)) := by
    cases p with
    | null => exact absurd rfl hp
    | bool b => rfl
    | num n => rfl
    | str s => rfl
    | arr xs => rfl
    | obj fs => rfl
  obtain ⟨⟨rest1, h1⟩, h2, h3⟩ := handleToolCall_effects st (jGetField p "name")
    (jGetField p "arguments") now r collab hostnameOf
  rw [hred]
  rcases htc : handleToolCall st (jGetField p "name") (jGetField p "arguments")
    now r collab hostnameOf with ⟨st', res, effs⟩
  rw [htc] at h1 h2 h3
  dsimp only at h1 h2 h3
  cases res with
  | ok v => exact ⟨⟨rest1, h1⟩, h2, h3⟩
  | error t => exact ⟨⟨rest1, h1⟩, h2, h3⟩

/-- Witness for `claim_C3` on a concrete `google_news_search` call. -/
theorem claim_C3_witness :
    (JValue.obj [("name", .str "google_news_search"), ("arguments", .obj [])] ≠ JValue.null) ∧
    ((∃ rest, (processJsonRpcRequest initialState ⟨some (.str "2.0"), some (.num 1), some (.str "tools/call"), some (.obj [("name", .str "google_news_search"), ("arguments", .obj [])])⟩ none "fresh" 0 0 (fun _ _ => .ok (.str "results")) (fun _ => .ok "h")).2.2 = Effect.checkLimit "default-client" :: rest) ∧
     (((checkLimit initialState.rateLimiter "default-client" 0).1).isSome = true →
       (processJsonRpcRequest initialState ⟨some (.str "2.0"), some (.num 1), some (.str "tools/call"), some (.obj [("name", .str "google_news_search"), ("arguments", .obj [])])⟩ none "fresh" 0 0 (fun _ _ => .ok (.str "results")) (fun _ => .ok "h")).2.2 = [Effect.checkLimit "default-client"]) ∧
     (∀ tool, Effect.invoke tool ∈ (processJsonRpcRequest initialState ⟨some (.str "2.0"), some (.num 1), some (.str "tools/call"), some (.obj [("name", .str "google_news_search"), ("arguments", .obj [])])⟩ none "fresh" 0 0 (fun _ _ => .ok (.str "results")) (fun _ => .ok "h")).2.2 →
       (checkLimit initialState.rateLimiter "default-client" 0).1 = none)) :=
  ⟨fun h => JValue.noConfusion h,
   claim_C3 initialState (some (.num 1))
     (.obj [("name", .str "google_news_search"), ("arguments", .obj [])])
     none "fresh" 0 0 (fun _ _ => .ok (.str "results")) (fun _ => .ok "h")
     (fun h => JValue.noConfusion h)⟩

end WebSearchMCP

namespace WebSearchMCP

/-! ## C2: send writes only to the originating stream and queues nothing -/

/-- C2 counterexample: a session with two open GET streams; `sendSSE` on the
first stream writes the event only to that stream, appends nothing to the
session's replay queue, and writes nothing to the second open stream. -/
theorem claim_C2_counterexample :
    (sendSSE (handleGet (handleGet
        { initialState with sessions := Function.update initialState.sessions "s1" (some ⟨"s1", 0, 0, true⟩) }
        (some "s1") none true).1 (some "s1") none true).1 0 (.str "payload") none).sseStreams "s1" = [0, 1] ∧
    (sendSSE (handleGet (handleGet
        { initialState with sessions := Function.update initialState.sessions "s1" (some ⟨"s1", 0, 0, true⟩) }
        (some "s1") none true).1 (some "s1") none true).1 0 (.str "payload") none).streams 0 =
      some ⟨0, "s1", 1, none, [⟨1, .str "payload"⟩]⟩ ∧
    (sendSSE (handleGet (handleGet
        { initialState with sessions := Function.update initialState.sessions "s1" (some ⟨"s1", 0, 0, true⟩) }
        (some "s1") none true).1 (some "s1") none true).1 0 (.str "payload") none).streams 1 =
      some ⟨1, "s1", 0, none, []⟩ ∧
    (sendSSE (handleGet (handleGet
        { initialState with sessions := Function.update initialState.sessions "s1" (some ⟨"s1", 0, 0, true⟩) }
        (some "s1") none true).1 (some "s1") none true).1 0 (.str "payload") none).messageQueues "s1" = [] :=
  ⟨rfl, rfl, rfl, rfl⟩

/-- C2 (amended): `sendSSE` with no explicit event id assigns the next global
event id and writes the event to the single stream it was called with; every
other stream is untouched and no `QueuedMessage` is appended to any replay
queue. -/
theorem claim_C2 (st : ServerState) (sid : Nat) (s : SSEStream) (data : JValue)
    (hs : st.streams sid = some s) :
    (sendSSE st sid data none).globalEventId = st.globalEventId + 1 ∧
    (sendSSE st sid data none).streams sid =
      some { s with lastEventId := st.globalEventId + 1,
                    writes := s.writes ++ [⟨st.globalEventId + 1, data⟩] } ∧
    (∀ k, k ≠ sid → (sendSSE st sid data none).streams k = st.streams k) ∧
    (sendSSE st sid data none).messageQueues = st.messageQueues ∧
    (sendSSE st sid data none).sseStreams = st.sseStreams := by
  refine ⟨rfl, ?_, ?_, rfl, rfl⟩
  · simp only [sendSSE]
    rw [Function.update_same, hs]
    rfl
  · intro k hk
    simp only [sendSSE]
    rw [Function.update_noteq hk]

/-- Witness for `claim_C2` on a server holding one open stream. -/
theorem claim_C2_witness :
    ({ initialState with streams := Function.update initialState.streams 0 (some ⟨0, "s1", 0, none, []⟩) } : ServerState).streams 0 = some ⟨0, "s1", 0, none, []⟩ ∧
    ((sendSSE { initialState with streams := Function.update initialState.streams 0 (some ⟨0, "s1", 0, none, []⟩) } 0 (.str "d") none).globalEventId = initialState.globalEventId + 1 ∧
     (sendSSE { initialState with streams := Function.update initialState.streams 0 (some ⟨0, "s1", 0, none, []⟩) } 0 (.str "d") none).streams 0 =
       some ⟨0, "s1", initialState.globalEventId + 1, none, [⟨initialState.globalEventId + 1, .str "d"⟩]⟩ ∧
     (∀ k, k ≠ 0 → (sendSSE { initialState with streams := Function.update initialState.streams 0 (some ⟨0, "s1", 0, none, []⟩) } 0 (.str "d") none).streams k =
       ({ initialState with streams := Function.update initialState.streams 0 (some ⟨0, "s1", 0, none, []⟩) } : ServerState).streams k) ∧
     (sendSSE { initialState with streams := Function.update initialState.streams 0 (some ⟨0, "s1", 0, none, []⟩) } 0 (.str "d") none).messageQueues =
       ({ initialState with streams := Function.update initialState.streams 0 (some ⟨0, "s1", 0, none, []⟩) } : ServerState).messageQueues ∧
     (sendSSE { initialState with streams := Function.update initialState.streams 0 (some ⟨0, "s1", 0, none, []⟩) } 0 (.str "d") none).sseStreams =
       ({ initialState with streams := Function.update initialState.streams 0 (some ⟨0, "s1", 0, none, []⟩) } : ServerState).sseStreams) :=
  ⟨by simp, claim_C2 _ 0 ⟨0, "s1", 0, none, []⟩ (.str "d") (by simp)⟩

/-! ## C1: resumable replay -/

/-- C1, evaluated at the failing input. A session is created by `initialize`,
a POST in SSE mode delivers event 1 for that session on its own stream, and a
subsequent `GET /mcp` with `Last-Event-ID: 0` replays nothing: the delivered
event was never appended to `messageQueues`, so the resumed stream's write
log stays empty even though event 1 (with id greater than 0) was delivered
for this session. -/
theorem claim_C1 :
    (handlePost (handlePost initialState none false
        (some ⟨some (.str "2.0"), some (.num 1), some (.str "initialize"), none⟩)
        "s1" 0 0 (fun _ _ => .ok .null) (fun _ => .ok "h")).1
      (some "s1") true
      (some ⟨some (.str "2.0"), some (.num 2), some (.str "ping"), none⟩)
      "unused" 0 0 (fun _ _ => .ok .null) (fun _ => .ok "h")).1.streams 0 =
      some ⟨0, "s1", 1, some (.num 2), [⟨1, rpcResult (some (.num 2)) (.obj [])⟩]⟩ ∧
    (handlePost (handlePost initialState none false
        (some ⟨some (.str "2.0"), some (.num 1), some (.str "initialize"), none⟩)
        "s1" 0 0 (fun _ _ => .ok .null) (fun _ => .ok "h")).1
      (some "s1") true
      (some ⟨some (.str "2.0"), some (.num 2), some (.str "ping"), none⟩)
      "unused" 0 0 (fun _ _ => .ok .null) (fun _ => .ok "h")).1.messageQueues "s1" = [] ∧
    (handleGet (handlePost (handlePost initialState none false
        (some ⟨some (.str "2.0"), some (.num 1), some (.str "initialize"), none⟩)
        "s1" 0 0 (fun _ _ => .ok .null) (fun _ => .ok "h")).1
      (some "s1") true
      (some ⟨some (.str "2.0"), some (.num 2), some (.str "ping"), none⟩)
      "unused" 0 0 (fun _ _ => .ok .null) (fun _ => .ok "h")).1
      (some "s1") (some 0) true).1.streams 1 = some ⟨1, "s1", 0, none, []⟩ :=
  ⟨rfl, rfl, rfl⟩

end WebSearchMCP
